import Mathlib

/-!
# Verification of the multi-workspace credential routing core

Shallow embedding of the `clickup-multi-mcp-server` core subsystems:

* Credential Store (`src/config.ts`): parsing/validation of the multi-workspace
  configuration and `getWorkspaceConfig` / `getAvailableWorkspaces` /
  `getDefaultWorkspace`.
* Workspace Registry (`src/services/shared.ts`): `getClickUpServices`, a
  process-wide cache of per-workspace service bundles.  The mutable
  `workspaceServicesMap` is made explicit as a `RegistryState` value threaded
  through calls; reference identity of bundles is modelled by a fresh
  `instanceId` drawn from a counter in the state.
* Dispatch Helper (`src/tools/workspace-helper.ts`): `getServicesForWorkspace`.
* Response Envelope (`src/utils/sponsor-service.ts`): `createResponse` and
  `createErrorResponse` over a JSON value universe; `JSON.stringify(_, null, 2)`
  is modelled by `stringifyIndent`.
* Tool Visibility Filter: the list parsing comes from `src/config.ts`; the
  filter application itself is not part of the provided sources and is
  modelled from the spec (`effectiveSet`).

JavaScript truthiness of an optional string (`x || d`) is made explicit:
`undefined` and the empty string are both falsy.
-/

namespace ClickUpMCP

/-- Association-list lookup, first match wins: models both JS
`Record<string, T>` property access and `Map.get`. -/
def lookupA {α : Type} : List (String × α) → String → Option α
  | [], _ => none
  | (k', v) :: rest, k => if k' = k then some v else lookupA rest k

/-- `array.join(', ')` from JS, used for the error messages. -/
def joinComma : List String → String
  | [] => ""
  | [a] => a
  | a :: b :: rest => a ++ ", " ++ joinComma (b :: rest)

/-- JS `x || d` for `x : string | undefined`: `undefined` and `""` are falsy. -/
def jsOrDefault (x : Option String) (d : String) : String :=
  match x with
  | none => d
  | some s => if s = "" then d else s

/-- `WorkspaceConfig` from `src/config.ts`: one tenant's credentials. -/
structure WorkspaceConfig where
  token : String
  teamId : String
  description : Option String
deriving DecidableEq, Repr

/-- `ClickUpWorkspacesConfig` from `src/config.ts`: the parsed
`CLICKUP_WORKSPACES` blob.  The JS `Record<string, WorkspaceConfig>` is an
association list (JSON objects have unique keys; lookup takes the first). -/
structure ClickUpWorkspacesConfig where
  defaultKey : String
  workspaces : List (String × WorkspaceConfig)
deriving DecidableEq, Repr

/-- The fields of the `Config` object from `src/config.ts` that the credential
routing core reads.  `clickupApiKey`/`clickupTeamId` default to `""` when the
environment variables are absent (`|| ''` in the source). -/
structure Config where
  clickupApiKey : String
  clickupTeamId : String
  clickupWorkspaces : Option ClickUpWorkspacesConfig
deriving DecidableEq, Repr

/-- The structure checks of `parseWorkspaces` (`src/config.ts` lines 138-162)
applied to an already-typed parse result.  A JSON field that is absent or
empty is the falsy `""` here: `!parsed.default` rejects an empty default key,
and each workspace must have truthy `token` and `teamId`. -/
def parseWorkspacesCheck (parsed : ClickUpWorkspacesConfig) :
    Except String ClickUpWorkspacesConfig :=
  if parsed.defaultKey = "" then
    .error "Invalid CLICKUP_WORKSPACES format: must have \"default\" and \"workspaces\" properties"
  else if parsed.workspaces.any (fun p => p.2.token = "" || p.2.teamId = "") then
    .error "Invalid workspace: must have \"token\" and \"teamId\" properties"
  else
    .ok parsed

/-- The module-level validation block of `src/config.ts` (lines 210-233):
multi-workspace mode requires the default key to be present in the map;
legacy mode requires both legacy credentials, naming the missing ones. -/
def validateConfiguration (cfg : Config) : Except String Unit :=
  match cfg.clickupWorkspaces with
  | some mw =>
    match lookupA mw.workspaces mw.defaultKey with
    | some _ => .ok ()
    | none =>
      .error ("Default workspace \"" ++ mw.defaultKey ++
        "\" not found in workspaces configuration")
  | none =>
    let missingEnvVars :=
      (if cfg.clickupApiKey = "" then ["clickupApiKey"] else []) ++
      (if cfg.clickupTeamId = "" then ["clickupTeamId"] else [])
    if missingEnvVars.isEmpty then .ok ()
    else
      .error ("Missing required environment variables: " ++ joinComma missingEnvVars ++
        ". Either provide CLICKUP_API_KEY and CLICKUP_TEAM_ID, or CLICKUP_WORKSPACES for multi-workspace support.")

/-- The raw environment as seen by `src/config.ts` before validation:
the legacy credentials (already defaulted to `""`) and the structural parse
of `CLICKUP_WORKSPACES` when the variable is set. -/
structure RawEnv where
  clickupApiKey : String
  clickupTeamId : String
  clickupWorkspaces : Option ClickUpWorkspacesConfig
deriving DecidableEq, Repr

/-- Module load of `src/config.ts`: `parseWorkspaces` runs while the
`configuration` object is built, then the validation block runs; a thrown
error at either point aborts startup. -/
def loadConfiguration (raw : RawEnv) : Except String Config :=
  let wsE : Except String (Option ClickUpWorkspacesConfig) :=
    match raw.clickupWorkspaces with
    | none => .ok none
    | some parsed => Except.map some (parseWorkspacesCheck parsed)
  match wsE with
  | .error e => .error e
  | .ok ws =>
    let cfg : Config :=
      { clickupApiKey := raw.clickupApiKey
        clickupTeamId := raw.clickupTeamId
        clickupWorkspaces := ws }
    match validateConfiguration cfg with
    | .error e => .error e
    | .ok _ => .ok cfg

/-- `getWorkspaceConfig` from `src/config.ts` (lines 240-269).  The thrown
`Error` is the `.error` branch carrying the message. -/
def getWorkspaceConfig (cfg : Config) (workspaceId : Option String) :
    Except String WorkspaceConfig :=
  match cfg.clickupWorkspaces with
  | some mw =>
    let wsId := jsOrDefault workspaceId mw.defaultKey
    match lookupA mw.workspaces wsId with
    | some workspace => .ok workspace
    | none =>
      .error ("Workspace \"" ++ wsId ++ "\" not found. Available workspaces: " ++
        joinComma (mw.workspaces.map Prod.fst))
  | none =>
    match workspaceId with
    | some wid =>
      if wid ≠ "" ∧ wid ≠ "default" then
        .error "Multiple workspaces not configured. Only default workspace is available. Set CLICKUP_WORKSPACES environment variable to enable multi-workspace support."
      else
        .ok { token := cfg.clickupApiKey, teamId := cfg.clickupTeamId
              description := some "Default workspace" }
    | none =>
      .ok { token := cfg.clickupApiKey, teamId := cfg.clickupTeamId
            description := some "Default workspace" }

/-- `getAvailableWorkspaces` from `src/config.ts` (lines 275-281). -/
def getAvailableWorkspaces (cfg : Config) : List String :=
  match cfg.clickupWorkspaces with
  | some mw => mw.workspaces.map Prod.fst
  | none => ["default"]

/-- `getDefaultWorkspace` from `src/config.ts` (lines 287-293). -/
def getDefaultWorkspace (cfg : Config) : String :=
  match cfg.clickupWorkspaces with
  | some mw => mw.defaultKey
  | none => "default"

/-- A `ClickUpServices` bundle from `src/services/clickup/index.ts`, as the
routing core sees it: opaque capability objects bound to one credential pair.
`instanceId` models JS reference identity: each run of the factory
`createClickUpServices` yields a fresh id, so two bundles are "the same
instance" exactly when they are equal here. -/
structure ServiceBundle where
  apiKey : String
  teamId : String
  instanceId : Nat
deriving DecidableEq, Repr

/-- The factory `createClickUpServices({apiKey, teamId})`, with the fresh
reference identity made explicit. -/
def createClickUpServices (apiKey teamId : String) (freshId : Nat) : ServiceBundle :=
  { apiKey := apiKey, teamId := teamId, instanceId := freshId }

/-- The mutable module state of `src/services/shared.ts`: the
`workspaceServicesMap`, plus a log of the keys for which the construction
logic actually ran, and the counter feeding fresh instance ids. -/
structure RegistryState where
  cache : List (String × ServiceBundle)
  constructions : List String
  nextId : Nat
deriving DecidableEq, Repr

/-- The registry state at module load, before any call: empty map. -/
def initialRegistryState : RegistryState :=
  { cache := [], constructions := [], nextId := 0 }

/-- `getClickUpServices` from `src/services/shared.ts` (lines 26-60):
resolve the workspace id (`workspaceId || getDefaultWorkspace()`), return the
cached bundle on a hit, otherwise look up credentials, construct a bundle,
store it and return it.  A thrown error from `getWorkspaceConfig` propagates. -/
def getClickUpServices (cfg : Config) (s : RegistryState)
    (workspaceId : Option String) : Except String (ServiceBundle × RegistryState) :=
  let wsId := jsOrDefault workspaceId (getDefaultWorkspace cfg)
  match lookupA s.cache wsId with
  | some services => .ok (services, s)
  | none =>
    match getWorkspaceConfig cfg (some wsId) with
    | .error e => .error e
    | .ok workspaceConfig =>
      let services := createClickUpServices workspaceConfig.token workspaceConfig.teamId s.nextId
      .ok (services,
        { cache := s.cache ++ [(wsId, services)]
          constructions := s.constructions ++ [wsId]
          nextId := s.nextId + 1 })

/-- The top-level `export const clickUpServices = getClickUpServices()` of
`src/services/shared.ts` (line 78): module initialization eagerly resolves
the default workspace against the empty registry. -/
def moduleInit (cfg : Config) : Except String (ServiceBundle × RegistryState) :=
  getClickUpServices cfg initialRegistryState none

/-- The parameter object of a tool call, as far as routing is concerned:
the optional `workspace` field. -/
structure ToolParams where
  workspace : Option String
deriving DecidableEq, Repr

/-- `getServicesForWorkspace` from `src/tools/workspace-helper.ts`
(lines 71-84): delegate to the registry; on failure re-throw with the list of
available workspaces appended to the message. -/
def getServicesForWorkspace (cfg : Config) (s : RegistryState)
    (params : ToolParams) : Except String (ServiceBundle × RegistryState) :=
  match getClickUpServices cfg s params.workspace with
  | .ok r => .ok r
  | .error msg =>
    .error (msg ++ "\nAvailable workspaces: " ++ joinComma (getAvailableWorkspaces cfg))

/-- Registry states reachable by the program: every cached key is a
configured workspace key (the map is only ever written under keys for which
`getWorkspaceConfig` succeeded). -/
def CacheWF (cfg : Config) (s : RegistryState) : Prop :=
  ∀ k : String, k ∉ getAvailableWorkspaces cfg → lookupA s.cache k = none

/-! ## Response Envelope (`src/utils/sponsor-service.ts`)

The `data: any` argument of `ResponseService.createResponse` ranges over the
JSON value universe. -/

mutual
/-- JSON values (the `any` payloads handled by `ResponseService`). -/
inductive JsonVal where
  | str : String → JsonVal
  | num : Int → JsonVal
  | bool : Bool → JsonVal
  | null : JsonVal
  | obj : JsonFields → JsonVal
  | arr : JsonElems → JsonVal
deriving DecidableEq, Repr

/-- The fields of a JSON object, in insertion order. -/
inductive JsonFields where
  | nil : JsonFields
  | cons : String → JsonVal → JsonFields → JsonFields
deriving DecidableEq, Repr

/-- The elements of a JSON array. -/
inductive JsonElems where
  | nil : JsonElems
  | cons : JsonVal → JsonElems → JsonElems
deriving DecidableEq, Repr
end

/-- Property lookup on a JSON object, first match (JS objects have unique
keys). -/
def JsonFields.lookup : JsonFields → String → Option JsonVal
  | .nil, _ => none
  | .cons k v rest, key => if k = key then some v else rest.lookup key

/-- Escape one character for a JSON string literal. -/
def escChar (c : Char) : String :=
  if c = '\\' then "\\\\"
  else if c = '\"' then "\\\""
  else if c = '\n' then "\\n"
  else if c = '\t' then "\\t"
  else if c = '\r' then "\\r"
  else String.singleton c

/-- JSON string literal for `s`. -/
def jsonQuote (s : String) : String :=
  "\"" ++ String.join (s.data.map escChar) ++ "\""

/-- `n` spaces, the indentation unit of `JSON.stringify(_, null, 2)`. -/
def spaces (n : Nat) : String :=
  String.mk (List.replicate n ' ')

mutual
/-- Model of `JSON.stringify(v, null, 2)` at indentation depth `d`
(the platform serializer used by `createResponse`). -/
def stringifyAt : Nat → JsonVal → String
  | _, .str s => jsonQuote s
  | _, .num n => toString n
  | _, .bool b => if b then "true" else "false"
  | _, .null => "null"
  | d, .obj fs =>
    match fs with
    | .nil => "{}"
    | .cons k v rest =>
      "\x7b\n" ++ stringifyFields (d + 2) (JsonFields.cons k v rest) ++ "\n" ++ spaces d ++ "\x7d"
  | d, .arr es =>
    match es with
    | .nil => "[]"
    | .cons v rest =>
      "[\n" ++ stringifyElems (d + 2) (JsonElems.cons v rest) ++ "\n" ++ spaces d ++ "]"

/-- The lines of an object body, comma-separated, at depth `d`. -/
def stringifyFields : Nat → JsonFields → String
  | _, .nil => ""
  | d, .cons k v .nil => spaces d ++ jsonQuote k ++ ": " ++ stringifyAt d v
  | d, .cons k v (.cons k' v' rest) =>
    spaces d ++ jsonQuote k ++ ": " ++ stringifyAt d v ++ ",\n" ++
      stringifyFields d (JsonFields.cons k' v' rest)

/-- The lines of an array body, comma-separated, at depth `d`. -/
def stringifyElems : Nat → JsonElems → String
  | _, .nil => ""
  | d, .cons v .nil => spaces d ++ stringifyAt d v
  | d, .cons v (.cons v' rest) =>
    spaces d ++ stringifyAt d v ++ ",\n" ++ stringifyElems d (JsonElems.cons v' rest)
end

/-- `JSON.stringify(v, null, 2)`. -/
def stringifyIndent (v : JsonVal) : String :=
  stringifyAt 0 v

/-- One part of an MCP response: `{ type: string; text: string }`. -/
structure ContentPart where
  type : String
  text : String
deriving DecidableEq, Repr

/-- The response envelope `{ content: {type, text}[] }` returned by every
tool handler. -/
structure Envelope where
  content : List ContentPart
deriving DecidableEq, Repr

/-- The special-case test of `createResponse`
(`data && typeof data === 'object' && 'hierarchy' in data &&
typeof data.hierarchy === 'string'`): a string-valued `hierarchy` property.
Only objects carry named properties in the JSON universe. -/
def hierarchyString (data : JsonVal) : Option String :=
  match data with
  | .obj fs =>
    match fs.lookup "hierarchy" with
    | some (.str s) => some s
    | _ => none
  | _ => none

/-- `ResponseService.createResponse` from `src/utils/sponsor-service.ts`
(lines 27-52).  (The ignored `_includeSponsorMessage` flag is dropped.) -/
def createResponse (data : JsonVal) : Envelope :=
  match hierarchyString data with
  | some tree => { content := [{ type := "text", text := tree }] }
  | none =>
    match data with
    | .str s => { content := [{ type := "text", text := s }] }
    | _ => { content := [{ type := "text", text := stringifyIndent data }] }

/-- JS object spread `{ error: msg, ...context }`: the `error` key keeps its
first position but is overridden by a same-named key of `context`; the
remaining fields of `context` follow in order. -/
def errorObject (msg : String) (context : JsonFields) : JsonFields :=
  JsonFields.cons "error"
    ((context.lookup "error").getD (.str msg))
    (removeError context)
where
  /-- Drop the `error` key from the spread tail (it was merged into the
  leading field). -/
  removeError : JsonFields → JsonFields
    | .nil => .nil
    | .cons k v rest =>
      if k = "error" then removeError rest else .cons k v (removeError rest)

/-- `ResponseService.createErrorResponse` from `src/utils/sponsor-service.ts`
(lines 57-62): wrap `{ error: message, ...context }` with `createResponse`.
(The `Error | string` argument is represented by its message.) -/
def createErrorResponse (msg : String) (context : JsonFields) : Envelope :=
  createResponse (.obj (errorObject msg context))

/-! ## Tool Visibility Filter -/

/-- The parsing of `ENABLED_TOOLS` / `DISABLED_TOOLS` from `src/config.ts`
(lines 171-176): split on commas, trim, drop empties; an unset variable gives
the empty list. -/
def parseToolList (value : Option String) : List String :=
  match value with
  | none => []
  | some v => ((v.splitOn ",").map String.trim).filter (fun cmd => cmd ≠ "")

/-- Modelled from the spec: the Tool Visibility Filter `effectiveSet`
(the code applying the enabled/disabled lists to the tool catalog is not
among the provided sources; only the configuration parsing above is).
If `enabledList` is non-empty the result is the catalog restricted to it,
otherwise the catalog minus `disabledList` (the full catalog when both lists
are empty). -/
def effectiveSet (catalog enabledList disabledList : List String) : List String :=
  if enabledList.isEmpty then
    catalog.filter (fun t => decide (t ∉ disabledList))
  else
    catalog.filter (fun t => decide (t ∈ enabledList))

/-! ## Derived notions and concrete sample configurations -/

/-- `k` occurs (contiguously) inside `s`. -/
def SubstrOf (k s : String) : Prop :=
  ∃ p q : List Char, s.data = p ++ k.data ++ q

/-- The legacy credential pair handed out by single-workspace mode. -/
def legacyWorkspace (cfg : Config) : WorkspaceConfig :=
  { token := cfg.clickupApiKey, teamId := cfg.clickupTeamId
    description := some "Default workspace" }

/-- The successor state produced by a cache miss for resolved key `wsId`
with credentials `w`. -/
def missState (s : RegistryState) (wsId : String) (w : WorkspaceConfig) : RegistryState :=
  { cache := s.cache ++ [(wsId, createClickUpServices w.token w.teamId s.nextId)]
    constructions := s.constructions ++ [wsId]
    nextId := s.nextId + 1 }

/-- How many times the bundle factory has run for key `k`. -/
def countConstructions (s : RegistryState) (k : String) : Nat :=
  s.constructions.count k

/-- A sample two-workspace `CLICKUP_WORKSPACES` configuration. -/
def mwEx : ClickUpWorkspacesConfig :=
  { defaultKey := "work"
    workspaces := [("work", { token := "pk_work", teamId := "123", description := none }),
                   ("personal", { token := "pk_personal", teamId := "789"
                                  description := some "personal account" })] }

/-- A sample multi-workspace process configuration. -/
def cfgMultiEx : Config :=
  { clickupApiKey := "", clickupTeamId := "", clickupWorkspaces := some mwEx }

/-- A sample legacy single-workspace process configuration. -/
def cfgLegacyEx : Config :=
  { clickupApiKey := "pk_legacy", clickupTeamId := "42", clickupWorkspaces := none }

/-- A sample multi-workspace blob whose default key is absent from the map. -/
def mwBadEx : ClickUpWorkspacesConfig :=
  { defaultKey := "missing"
    workspaces := [("work", { token := "pk_work", teamId := "123", description := none })] }

/-- A sample raw environment carrying the broken blob `mwBadEx`. -/
def rawBadEx : RawEnv :=
  { clickupApiKey := "", clickupTeamId := "", clickupWorkspaces := some mwBadEx }

/-- A single-part text envelope: the only shape either response operation
ever produces. -/
def textEnvelope (t : String) : Envelope :=
  { content := [{ type := "text", text := t }] }

/-- A sample error-response context with a string `hierarchy` field. -/
def ctxHierarchyEx : JsonFields :=
  .cons "hierarchy" (.str "tree") .nil

/-- A sample non-string payload with a string `hierarchy` field. -/
def hierObjEx : JsonVal :=
  .obj (.cons "hierarchy" (.str "T") (.cons "x" (.num 1) .nil))

/-! ## Helper lemmas -/

theorem data_append (a b : String) : (a ++ b).data = a.data ++ b.data := rfl

theorem substrOf_append_left (k pre t : String) (h : SubstrOf k t) :
    SubstrOf k (pre ++ t) := by
  obtain ⟨p, q, hpq⟩ := h
  exact ⟨pre.data ++ p, q, by rw [data_append, hpq]; simp⟩

theorem substrOf_mem_joinComma (k : String) (l : List String) (h : k ∈ l) :
    SubstrOf k (joinComma l) := by
  induction l with
  | nil => cases h
  | cons a rest ih =>
    rcases List.mem_cons.mp h with rfl | hmem
    · cases rest with
      | nil => exact ⟨[], [], by simp [joinComma]⟩
      | cons b r =>
        exact ⟨[], (", " ++ joinComma (b :: r)).data, by
          show (joinComma (k :: b :: r)).data = [] ++ k.data ++ _
          simp [joinComma, data_append]⟩
    · have hrest := ih hmem
      cases rest with
      | nil => cases hmem
      | cons b r =>
        have : joinComma (a :: b :: r) = (a ++ ", ") ++ joinComma (b :: r) := by
          simp [joinComma, String.append_assoc]
        rw [this]
        exact substrOf_append_left _ _ _ hrest

theorem lookupA_append_self {α : Type} (l : List (String × α)) (k : String) (v : α)
    (h : lookupA l k = none) : lookupA (l ++ [(k, v)]) k = some v := by
  induction l with
  | nil => simp [lookupA]
  | cons hd tl ih =>
    obtain ⟨k', v'⟩ := hd
    simp only [lookupA, List.cons_append] at h ⊢
    by_cases hk : k' = k
    · rw [if_pos hk] at h
      exact Option.noConfusion h
    · rw [if_neg hk] at h ⊢
      exact ih h

theorem jsOrDefault_none (d : String) : jsOrDefault none d = d := rfl

theorem jsOrDefault_some_self (d : String) : jsOrDefault (some d) d = d := by
  show (if d = "" then d else d) = d
  split <;> rfl

theorem jsOrDefault_empty (d : String) : jsOrDefault (some "") d = d := rfl

theorem jsOrDefault_some_ne (s d : String) (h : s ≠ "") : jsOrDefault (some s) d = s := by
  simp [jsOrDefault, h]

/-- In validated multi-workspace mode the default key is present in the map. -/
theorem validate_multi_default_present (cfg : Config) (mw : ClickUpWorkspacesConfig)
    (hmw : cfg.clickupWorkspaces = some mw)
    (hval : validateConfiguration cfg = .ok ()) :
    ∃ w, lookupA mw.workspaces mw.defaultKey = some w := by
  rcases h : lookupA mw.workspaces mw.defaultKey with _ | w
  · exfalso
    simp [validateConfiguration, hmw, h] at hval
  · exact ⟨w, rfl⟩

/-- In a validated configuration, looking up the default workspace's
credentials always succeeds. -/
theorem getWorkspaceConfig_default_ok (cfg : Config)
    (hval : validateConfiguration cfg = .ok ()) :
    ∃ w, getWorkspaceConfig cfg (some (getDefaultWorkspace cfg)) = .ok w := by
  rcases hmw : cfg.clickupWorkspaces with _ | mw
  · refine ⟨legacyWorkspace cfg, ?_⟩
    simp [getWorkspaceConfig, getDefaultWorkspace, hmw, legacyWorkspace]
  · obtain ⟨w, hw⟩ := validate_multi_default_present cfg mw hmw hval
    refine ⟨w, ?_⟩
    simp [getWorkspaceConfig, getDefaultWorkspace, hmw, jsOrDefault_some_self, hw]

/-- On a cache hit for the resolved key, `getClickUpServices` returns the
cached bundle and leaves the state unchanged. -/
theorem getClickUpServices_cacheHit (cfg : Config) (s : RegistryState)
    (wid : Option String) (b : ServiceBundle)
    (hc : lookupA s.cache (jsOrDefault wid (getDefaultWorkspace cfg)) = some b) :
    getClickUpServices cfg s wid = .ok (b, s) := by
  simp only [getClickUpServices, hc]

/-- On a cache miss where the credential lookup succeeds,
`getClickUpServices` constructs a fresh bundle and stores it. -/
theorem getClickUpServices_cacheMiss (cfg : Config) (s : RegistryState)
    (wid : Option String) (w : WorkspaceConfig)
    (hc : lookupA s.cache (jsOrDefault wid (getDefaultWorkspace cfg)) = none)
    (hw : getWorkspaceConfig cfg (some (jsOrDefault wid (getDefaultWorkspace cfg))) = .ok w) :
    getClickUpServices cfg s wid =
      .ok (createClickUpServices w.token w.teamId s.nextId,
           missState s (jsOrDefault wid (getDefaultWorkspace cfg)) w) := by
  simp only [getClickUpServices, hc, hw, missState]

/-- On a cache miss where the credential lookup fails, the error propagates. -/
theorem getClickUpServices_cacheMissErr (cfg : Config) (s : RegistryState)
    (wid : Option String) (e : String)
    (hc : lookupA s.cache (jsOrDefault wid (getDefaultWorkspace cfg)) = none)
    (hw : getWorkspaceConfig cfg (some (jsOrDefault wid (getDefaultWorkspace cfg))) = .error e) :
    getClickUpServices cfg s wid = .error e := by
  simp only [getClickUpServices, hc, hw]

/-- Resolving with an explicit default selector is the very same computation
as resolving with an absent selector. -/
theorem getClickUpServices_some_default (cfg : Config) (s : RegistryState) :
    getClickUpServices cfg s (some (getDefaultWorkspace cfg)) =
      getClickUpServices cfg s none := by
  unfold getClickUpServices
  rw [jsOrDefault_some_self, jsOrDefault_none]

/-- In a validated configuration, resolving the default workspace succeeds. -/
theorem getClickUpServices_none_ok (cfg : Config) (s : RegistryState)
    (hval : validateConfiguration cfg = .ok ()) :
    ∃ r, getClickUpServices cfg s none = .ok r := by
  rcases hc : lookupA s.cache (getDefaultWorkspace cfg) with _ | b
  · obtain ⟨w, hw⟩ := getWorkspaceConfig_default_ok cfg hval
    exact ⟨_, getClickUpServices_cacheMiss cfg s none w hc hw⟩
  · exact ⟨(b, s), getClickUpServices_cacheHit cfg s none b hc⟩

theorem lookupA_none_of_not_mem {α : Type} (l : List (String × α)) (k : String)
    (h : k ∉ l.map Prod.fst) : lookupA l k = none := by
  induction l with
  | nil => rfl
  | cons hd tl ih =>
    obtain ⟨k', v'⟩ := hd
    simp only [List.map_cons, List.mem_cons] at h
    push_neg at h
    simp only [lookupA]
    rw [if_neg (Ne.symm h.1)]
    exact ih h.2

theorem lookupA_isSome_of_mem {α : Type} (l : List (String × α)) (k : String)
    (h : k ∈ l.map Prod.fst) : ∃ v, lookupA l k = some v := by
  induction l with
  | nil => cases h
  | cons hd tl ih =>
    obtain ⟨k', v'⟩ := hd
    by_cases hk : k' = k
    · exact ⟨v', by simp [lookupA, hk]⟩
    · simp only [List.map_cons, List.mem_cons] at h
      rcases h with rfl | h
      · exact absurd rfl hk
      · obtain ⟨v, hv⟩ := ih h
        exact ⟨v, by simp [lookupA, hk, hv]⟩

/-- Resolving the explicit default selector and the absent selector give the
same credentials. -/
theorem getWorkspaceConfig_some_default (cfg : Config) :
    getWorkspaceConfig cfg (some (getDefaultWorkspace cfg)) =
      getWorkspaceConfig cfg none := by
  rcases hmw : cfg.clickupWorkspaces with _ | mw
  · simp [getWorkspaceConfig, getDefaultWorkspace, hmw]
  · simp [getWorkspaceConfig, getDefaultWorkspace, hmw, jsOrDefault_some_self,
      jsOrDefault_none]

/-- Any configured key resolves to credentials (the empty-string key falls
back to the default workspace). -/
theorem getWorkspaceConfig_mem_ok (cfg : Config) (k : String)
    (hval : validateConfiguration cfg = .ok ())
    (hk : k ∈ getAvailableWorkspaces cfg) :
    ∃ w, getWorkspaceConfig cfg (some (jsOrDefault (some k) (getDefaultWorkspace cfg))) =
      .ok w := by
  by_cases hke : k = ""
  · subst hke
    rw [jsOrDefault_empty]
    exact getWorkspaceConfig_default_ok cfg hval
  · rw [jsOrDefault_some_ne k _ hke]
    rcases hmw : cfg.clickupWorkspaces with _ | mw
    · have : k = "default" := by
        simp [getAvailableWorkspaces, hmw] at hk
        exact hk
      subst this
      exact ⟨legacyWorkspace cfg, by simp [getWorkspaceConfig, hmw, legacyWorkspace]⟩
    · simp only [getAvailableWorkspaces, hmw] at hk
      obtain ⟨w, hw⟩ := lookupA_isSome_of_mem mw.workspaces k hk
      refine ⟨w, ?_⟩
      simp [getWorkspaceConfig, hmw, jsOrDefault_some_ne k _ hke, hw]

theorem parseWorkspacesCheck_ok_eq (p q : ClickUpWorkspacesConfig)
    (h : parseWorkspacesCheck p = .ok q) : q = p := by
  unfold parseWorkspacesCheck at h
  split at h
  · cases h
  · split at h
    · cases h
    · cases h; rfl

/-- A successful configuration load implies the validation block passed on
the loaded configuration. -/
theorem load_ok_validated (raw : RawEnv) (cfg : Config)
    (h : loadConfiguration raw = .ok cfg) :
    validateConfiguration cfg = .ok () := by
  rcases hws : raw.clickupWorkspaces with _ | parsed
  all_goals simp only [loadConfiguration, hws] at h
  · rcases hv : validateConfiguration
        { clickupApiKey := raw.clickupApiKey, clickupTeamId := raw.clickupTeamId
          clickupWorkspaces := none } with e | u
    all_goals rw [hv] at h
    · cases h
    · cases u
      cases h
      exact hv
  · rcases hp : parseWorkspacesCheck parsed with e | ws
    all_goals rw [hp] at h
    · simp only [Except.map] at h
      cases h
    · simp only [Except.map] at h
      rcases hv : validateConfiguration
          { clickupApiKey := raw.clickupApiKey, clickupTeamId := raw.clickupTeamId
            clickupWorkspaces := some ws } with e | u
      all_goals rw [hv] at h
      · cases h
      · cases u
        cases h
        exact hv

/-! ## Claim theorems -/

/-- C1: For every tenant key `k` present in the configuration (and a
validated configuration), two sequential calls to `getClickUpServices k`
return the identical `ServiceBundle` instance, the second call leaves the
registry untouched, and the bundle-construction logic runs at most once for
`k` over the two calls. -/
theorem C1_resolve_at_most_once (cfg : Config) (s : RegistryState) (k : String)
    (hval : validateConfiguration cfg = .ok ())
    (hk : k ∈ getAvailableWorkspaces cfg) :
    ∃ b s', getClickUpServices cfg s (some k) = .ok (b, s') ∧
      getClickUpServices cfg s' (some k) = .ok (b, s') ∧
      countConstructions s' k ≤ countConstructions s k + 1 := by
  rcases hc : lookupA s.cache (jsOrDefault (some k) (getDefaultWorkspace cfg)) with _ | b
  · obtain ⟨w, hw⟩ := getWorkspaceConfig_mem_ok cfg k hval hk
    have h1 := getClickUpServices_cacheMiss cfg s (some k) w hc hw
    have hc2 : lookupA (missState s (jsOrDefault (some k) (getDefaultWorkspace cfg)) w).cache
        (jsOrDefault (some k) (getDefaultWorkspace cfg)) =
        some (createClickUpServices w.token w.teamId s.nextId) := by
      simp only [missState]
      exact lookupA_append_self _ _ _ hc
    have h2 := getClickUpServices_cacheHit cfg
      (missState s (jsOrDefault (some k) (getDefaultWorkspace cfg)) w) (some k) _ hc2
    refine ⟨_, _, h1, h2, ?_⟩
    simp only [countConstructions, missState, List.count_append]
    have : List.count k [jsOrDefault (some k) (getDefaultWorkspace cfg)] ≤ 1 := by
      simp only [List.count_singleton]
      split <;> omega
    omega
  · have h1 := getClickUpServices_cacheHit cfg s (some k) b hc
    exact ⟨b, s, h1, h1, Nat.le_succ _⟩

/-- C2: For every valid multi-tenant configuration, resolving with an absent
tenant selector yields exactly the same bundle instance (and registry state)
as resolving with the configured default tenant key. -/
theorem C2_default_selector_eq_absent (cfg : Config) (mw : ClickUpWorkspacesConfig)
    (s : RegistryState)
    (hmw : cfg.clickupWorkspaces = some mw)
    (hval : validateConfiguration cfg = .ok ()) :
    ∃ b s', getClickUpServices cfg s none = .ok (b, s') ∧
      getClickUpServices cfg s (some mw.defaultKey) = .ok (b, s') := by
  obtain ⟨⟨b, s'⟩, hr⟩ := getClickUpServices_none_ok cfg s hval
  refine ⟨b, s', hr, ?_⟩
  have hdef : getDefaultWorkspace cfg = mw.defaultKey := by
    simp [getDefaultWorkspace, hmw]
  rw [← hdef, getClickUpServices_some_default]
  exact hr

/-- C4: Whenever the multi-tenant map is present, every credential lookup
resolves against that map only: a successful `getWorkspaceConfig` returns an
entry of the map at the resolved key, and the result never depends on the
legacy token/teamId fields. -/
theorem C4_multi_precedence (cfg : Config) (mw : ClickUpWorkspacesConfig)
    (hmw : cfg.clickupWorkspaces = some mw) :
    (∀ sel w, getWorkspaceConfig cfg sel = .ok w →
      lookupA mw.workspaces (jsOrDefault sel mw.defaultKey) = some w) ∧
    (∀ sel a b, getWorkspaceConfig
        { cfg with clickupApiKey := a, clickupTeamId := b } sel =
      getWorkspaceConfig cfg sel) := by
  constructor
  · intro sel w h
    simp only [getWorkspaceConfig, hmw] at h
    rcases hl : lookupA mw.workspaces (jsOrDefault sel mw.defaultKey) with _ | w'
    · rw [hl] at h
      cases h
    · rw [hl] at h
      cases h
      rfl
  · intro sel a b
    simp only [getWorkspaceConfig, hmw]

/-- C5: A multi-tenant configuration whose designated default key is absent
from the tenant map fails at configuration load, and conversely any
configuration that loads successfully resolves its default tenant at every
call, so the violation never surfaces as a per-call error. -/
theorem C5_default_absent_fatal_at_load (raw : RawEnv) :
    (∀ mw, raw.clickupWorkspaces = some mw →
      lookupA mw.workspaces mw.defaultKey = none →
      ∃ e, loadConfiguration raw = .error e) ∧
    (∀ cfg, loadConfiguration raw = .ok cfg →
      ∀ s, ∃ r, getClickUpServices cfg s none = .ok r) := by
  constructor
  · intro mw hmw habs
    rcases hp : parseWorkspacesCheck mw with e | ws
    · exact ⟨e, by simp only [loadConfiguration, hmw, hp, Except.map]⟩
    · have hws : ws = mw := parseWorkspacesCheck_ok_eq mw ws hp
      subst hws
      refine ⟨"Default workspace \"" ++ ws.defaultKey ++
        "\" not found in workspaces configuration", ?_⟩
      simp only [loadConfiguration, hmw, hp, Except.map, validateConfiguration, habs]
  · intro cfg hload s
    exact getClickUpServices_none_ok cfg s (load_ok_validated raw cfg hload)

/-- C9: The empty-string tenant selector behaves exactly like an absent
selector for both the registry and the credential store, and under a
validated configuration it resolves to the default tenant's bundle and
credentials rather than failing with an unknown-tenant error. -/
theorem C9_empty_selector_is_default (cfg : Config) (s : RegistryState) :
    getClickUpServices cfg s (some "") = getClickUpServices cfg s none ∧
    getWorkspaceConfig cfg (some "") = getWorkspaceConfig cfg none ∧
    (validateConfiguration cfg = .ok () →
      (∃ r, getClickUpServices cfg s (some "") = .ok r) ∧
      ∃ w, getWorkspaceConfig cfg (some "") = .ok w) := by
  have h1 : getClickUpServices cfg s (some "") = getClickUpServices cfg s none := by
    unfold getClickUpServices
    rw [jsOrDefault_empty, jsOrDefault_none]
  have h2 : getWorkspaceConfig cfg (some "") = getWorkspaceConfig cfg none := by
    rcases hmw : cfg.clickupWorkspaces with _ | mw
    · simp [getWorkspaceConfig, hmw]
    · simp [getWorkspaceConfig, hmw, jsOrDefault_empty, jsOrDefault_none]
  refine ⟨h1, h2, fun hval => ⟨?_, ?_⟩⟩
  · rw [h1]
    exact getClickUpServices_none_ok cfg s hval
  · rw [h2, ← getWorkspaceConfig_some_default]
    exact getWorkspaceConfig_default_ok cfg hval

/-- C10: Module initialization of the shared-services module eagerly resolves
the default workspace: right after startup the registry cache holds the
default tenant's bundle and the construction logic has run exactly once, for
the default key. -/
theorem C10_eager_default_init (cfg : Config)
    (hval : validateConfiguration cfg = .ok ()) :
    ∃ b s', moduleInit cfg = .ok (b, s') ∧
      lookupA s'.cache (getDefaultWorkspace cfg) = some b ∧
      s'.constructions = [getDefaultWorkspace cfg] := by
  obtain ⟨w, hw⟩ := getWorkspaceConfig_default_ok cfg hval
  have hc : lookupA initialRegistryState.cache
      (jsOrDefault none (getDefaultWorkspace cfg)) = none := rfl
  have h1 := getClickUpServices_cacheMiss cfg initialRegistryState none w hc
    (by rw [jsOrDefault_none]; exact hw)
  refine ⟨_, _, h1, ?_, ?_⟩
  · simp [missState, initialRegistryState, jsOrDefault_none, lookupA]
  · simp [missState, initialRegistryState, jsOrDefault_none]

/-- C3 (amended): For every non-empty tenant key `k'` not present in the
configuration, the dispatch helper fails with an error whose message is the
registry's message with the full list of available workspace keys appended,
so the message contains every key from `getAvailableWorkspaces` — in legacy
single-tenant mode that list is exactly `["default"]`. -/
theorem C3_unknown_tenant_message (cfg : Config) (s : RegistryState) (k' : String)
    (hwf : CacheWF cfg s) (hne : k' ≠ "")
    (habs : k' ∉ getAvailableWorkspaces cfg) :
    ∃ m, getServicesForWorkspace cfg s ⟨some k'⟩ =
        .error (m ++ "\nAvailable workspaces: " ++ joinComma (getAvailableWorkspaces cfg)) ∧
      ∀ k ∈ getAvailableWorkspaces cfg,
        SubstrOf k (m ++ "\nAvailable workspaces: " ++
          joinComma (getAvailableWorkspaces cfg)) := by
  have hres : jsOrDefault (some k') (getDefaultWorkspace cfg) = k' :=
    jsOrDefault_some_ne k' _ hne
  have hc : lookupA s.cache (jsOrDefault (some k') (getDefaultWorkspace cfg)) = none := by
    rw [hres]
    exact hwf k' habs
  have hwerr : ∃ m, getWorkspaceConfig cfg
      (some (jsOrDefault (some k') (getDefaultWorkspace cfg))) = .error m := by
    rw [hres]
    rcases hmw : cfg.clickupWorkspaces with _ | mw
    · have hkd : k' ≠ "default" := by
        intro he
        exact habs (by simp [getAvailableWorkspaces, hmw, he])
      refine ⟨"Multiple workspaces not configured. Only default workspace is available. Set CLICKUP_WORKSPACES environment variable to enable multi-workspace support.", ?_⟩
      simp [getWorkspaceConfig, hmw, hne, hkd]
    · have hmem : k' ∉ mw.workspaces.map Prod.fst := by
        simpa [getAvailableWorkspaces, hmw] using habs
      have hl : lookupA mw.workspaces k' = none :=
        lookupA_none_of_not_mem _ _ hmem
      refine ⟨"Workspace \"" ++ k' ++ "\" not found. Available workspaces: " ++
        joinComma (mw.workspaces.map Prod.fst), ?_⟩
      simp [getWorkspaceConfig, hmw, hl, jsOrDefault_some_ne k' _ hne]
  obtain ⟨m, hm⟩ := hwerr
  have herr := getClickUpServices_cacheMissErr cfg s (some k') m hc hm
  refine ⟨m, ?_, ?_⟩
  · simp only [getServicesForWorkspace, herr]
  · intro k hkmem
    exact substrOf_append_left _ _ _ (substrOf_mem_joinComma k _ hkmem)

/-- C6: For every catalog and override lists, the effective enabled set is
the catalog ∩ enabled list when the enabled list is non-empty (with the
disabled list ignored and non-catalog names dropped), the catalog minus the
disabled list when the enabled list is empty, and the full catalog when both
lists are empty. -/
theorem C6_effective_set (catalog enabledList disabledList : List String) :
    (enabledList ≠ [] → ∀ t, t ∈ effectiveSet catalog enabledList disabledList ↔
      t ∈ catalog ∧ t ∈ enabledList) ∧
    (enabledList ≠ [] → ∀ d', effectiveSet catalog enabledList disabledList =
      effectiveSet catalog enabledList d') ∧
    (enabledList = [] → ∀ t, t ∈ effectiveSet catalog enabledList disabledList ↔
      t ∈ catalog ∧ t ∉ disabledList) ∧
    (enabledList = [] → disabledList = [] →
      effectiveSet catalog enabledList disabledList = catalog) := by
  refine ⟨?_, ?_, ?_, ?_⟩
  · intro he t
    simp [effectiveSet, List.isEmpty_iff, he, List.mem_filter]
  · intro he d'
    simp [effectiveSet, List.isEmpty_iff, he]
  · intro he t
    subst he
    simp [effectiveSet, List.mem_filter]
  · intro he hd
    subst he
    subst hd
    simp [effectiveSet]

theorem removeError_lookup : ∀ (c : JsonFields) (key : String), key ≠ "error" →
    (errorObject.removeError c).lookup key = c.lookup key
  | .nil, _, _ => rfl
  | .cons k v rest, key, hk => by
    by_cases hke : k = "error"
    · subst hke
      simp only [errorObject.removeError, if_pos rfl, JsonFields.lookup,
        if_neg (Ne.symm hk)]
      exact removeError_lookup rest key hk
    · simp only [errorObject.removeError, if_neg hke, JsonFields.lookup]
      by_cases hkk : k = key
      · rw [if_pos hkk, if_pos hkk]
      · rw [if_neg hkk, if_neg hkk]
        exact removeError_lookup rest key hk

/-- The error object built by `createErrorResponse` has a `hierarchy` field
exactly when the extra context does. -/
theorem errorObject_lookup_hierarchy (m : String) (c : JsonFields) :
    (errorObject m c).lookup "hierarchy" = c.lookup "hierarchy" := by
  show (if ("error" : String) = "hierarchy" then _ else _) = _
  rw [if_neg (by decide)]
  exact removeError_lookup c "hierarchy" (by decide)

theorem hierarchyString_obj (fs : JsonFields) :
    hierarchyString (.obj fs) =
      match fs.lookup "hierarchy" with
      | some (.str s) => some s
      | _ => none := rfl

/-- C7 (amended): `createErrorResponse` always returns a single-part text
envelope (never a transport fault), and whenever the extra context carries no
string-valued `hierarchy` field its text is the indented serialization of
`{ error: message, ...context }`. -/
theorem C7_error_envelope (m : String) (c : JsonFields) :
    (∃ t, createErrorResponse m c = textEnvelope t) ∧
    ((∀ str, c.lookup "hierarchy" ≠ some (.str str)) →
      createErrorResponse m c =
        textEnvelope (stringifyIndent (.obj (errorObject m c)))) := by
  constructor
  · rcases hh : hierarchyString (.obj (errorObject m c)) with _ | t
    · exact ⟨stringifyIndent (.obj (errorObject m c)), by
        simp only [createErrorResponse, createResponse, hh, textEnvelope]⟩
    · exact ⟨t, by simp only [createErrorResponse, createResponse, hh, textEnvelope]⟩
  · intro hno
    have hh : hierarchyString (.obj (errorObject m c)) = none := by
      rw [hierarchyString_obj, errorObject_lookup_hierarchy]
      rcases hc : c.lookup "hierarchy" with _ | v
      · rfl
      · cases v with
        | str str => exact absurd hc (hno str)
        | num n => rfl
        | bool b => rfl
        | null => rfl
        | obj fs => rfl
        | arr es => rfl
    simp only [createErrorResponse, createResponse, hh, textEnvelope]

/-- C8 (amended): `createResponse` always returns a single-part text
envelope; a textual payload is passed through verbatim; a payload with a
string `hierarchy` field yields that field verbatim; any other payload is
serialized as indented JSON. -/
theorem C8_response_envelope (p : JsonVal) :
    (∃ t, createResponse p = textEnvelope t) ∧
    (∀ s, p = .str s → createResponse p = textEnvelope s) ∧
    (∀ s, hierarchyString p = some s → createResponse p = textEnvelope s) ∧
    ((∀ s, p ≠ .str s) → hierarchyString p = none →
      createResponse p = textEnvelope (stringifyIndent p)) := by
  refine ⟨?_, ?_, ?_, ?_⟩
  · rcases hh : hierarchyString p with _ | t
    · cases p with
      | str s => exact ⟨s, by simp only [createResponse, hh, textEnvelope]⟩
      | num n => exact ⟨stringifyIndent (.num n), by simp only [createResponse, hh, textEnvelope]⟩
      | bool b => exact ⟨stringifyIndent (.bool b), by simp only [createResponse, hh, textEnvelope]⟩
      | null => exact ⟨stringifyIndent .null, by simp only [createResponse, hh, textEnvelope]⟩
      | obj fs => exact ⟨stringifyIndent (.obj fs), by simp only [createResponse, hh, textEnvelope]⟩
      | arr es => exact ⟨stringifyIndent (.arr es), by simp only [createResponse, hh, textEnvelope]⟩
    · exact ⟨t, by simp only [createResponse, hh, textEnvelope]⟩
  · intro s hp
    subst hp
    rfl
  · intro s hs
    simp only [createResponse, hs, textEnvelope]
  · intro hns hh
    cases p with
    | str s => exact absurd rfl (hns s)
    | num n => simp only [createResponse, hh, textEnvelope]
    | bool b => simp only [createResponse, hh, textEnvelope]
    | null => simp only [createResponse, hh, textEnvelope]
    | obj fs => simp only [createResponse, hh, textEnvelope]
    | arr es => simp only [createResponse, hh, textEnvelope]

/-! ## Witnesses and counterexamples at concrete inputs -/

/-- C1 witness at the sample multi-workspace configuration and the
`"personal"` key. -/
theorem C1_witness :
    ∃ b s', getClickUpServices cfgMultiEx initialRegistryState (some "personal") = .ok (b, s') ∧
      getClickUpServices cfgMultiEx s' (some "personal") = .ok (b, s') ∧
      countConstructions s' "personal" ≤
        countConstructions initialRegistryState "personal" + 1 :=
  C1_resolve_at_most_once cfgMultiEx initialRegistryState "personal" rfl (by decide)

/-- C2 witness at the sample multi-workspace configuration. -/
theorem C2_witness :
    ∃ b s', getClickUpServices cfgMultiEx initialRegistryState none = .ok (b, s') ∧
      getClickUpServices cfgMultiEx initialRegistryState (some mwEx.defaultKey) = .ok (b, s') :=
  C2_default_selector_eq_absent cfgMultiEx mwEx initialRegistryState rfl rfl

/-- C3 witness: the unknown key `"nope"` in legacy mode. -/
theorem C3_witness :
    ∃ m, getServicesForWorkspace cfgLegacyEx initialRegistryState ⟨some "nope"⟩ =
        .error (m ++ "\nAvailable workspaces: " ++
          joinComma (getAvailableWorkspaces cfgLegacyEx)) ∧
      ∀ k ∈ getAvailableWorkspaces cfgLegacyEx,
        SubstrOf k (m ++ "\nAvailable workspaces: " ++
          joinComma (getAvailableWorkspaces cfgLegacyEx)) :=
  C3_unknown_tenant_message cfgLegacyEx initialRegistryState "nope"
    (fun _ _ => rfl) (by decide) (by decide)

/-- C3 counterexample: in legacy mode the empty-string key — a key other
than `"default"` that is not present in the configuration — does not fail;
it resolves to the default workspace's bundle. -/
theorem C3_counterexample :
    ("" : String) ≠ "default" ∧
    getServicesForWorkspace cfgLegacyEx initialRegistryState ⟨some ""⟩ =
      .ok ({ apiKey := "pk_legacy", teamId := "42", instanceId := 0 },
        { cache := [("default", { apiKey := "pk_legacy", teamId := "42", instanceId := 0 })]
          constructions := ["default"]
          nextId := 1 }) :=
  ⟨by decide, rfl⟩

/-- C4 witness: with the multi-workspace map present, rewriting the legacy
credential fields does not change any lookup. -/
theorem C4_witness :
    getWorkspaceConfig
        { cfgMultiEx with clickupApiKey := "LEGACY_KEY", clickupTeamId := "999" }
        (some "personal") =
      getWorkspaceConfig cfgMultiEx (some "personal") :=
  (C4_multi_precedence cfgMultiEx mwEx rfl).2 (some "personal") "LEGACY_KEY" "999"

/-- C5 witness: the broken sample blob fails at configuration load. -/
theorem C5_witness :
    ∃ e, loadConfiguration rawBadEx = .error e :=
  (C5_default_absent_fatal_at_load rawBadEx).1 mwBadEx rfl rfl

/-- C6 witness at the spec's example catalog and lists. -/
theorem C6_witness :
    ("C" : String) ∈ effectiveSet ["A", "B", "C", "D"] ["A", "C"] ["B"] ↔
      ("C" : String) ∈ (["A", "B", "C", "D"] : List String) ∧
        ("C" : String) ∈ (["A", "C"] : List String) :=
  (C6_effective_set ["A", "B", "C", "D"] ["A", "C"] ["B"]).1 (by decide) "C"

/-- C7 witness: `fail("boom")` with no extra context serializes the error
object. -/
theorem C7_witness :
    createErrorResponse "boom" JsonFields.nil =
      textEnvelope (stringifyIndent (.obj (errorObject "boom" JsonFields.nil))) :=
  (C7_error_envelope "boom" JsonFields.nil).2 (fun _ h => Option.noConfusion h)

/-- C7 counterexample: an extra context with a string `hierarchy` field makes
the envelope text that field's raw value, not a serialization of
`{ error: message, ...context }`. -/
theorem C7_counterexample :
    createErrorResponse "boom" ctxHierarchyEx = textEnvelope "tree" ∧
    "tree" ≠ stringifyIndent (.obj (errorObject "boom" ctxHierarchyEx)) :=
  ⟨rfl, by decide⟩

/-- C8 witness: a textual payload is passed through verbatim. -/
theorem C8_witness :
    createResponse (.str "hello") = textEnvelope "hello" :=
  (C8_response_envelope (.str "hello")).2.1 "hello" rfl

/-- C8 counterexample: a non-textual payload with a string `hierarchy` field
is not serialized as indented JSON; its `hierarchy` value is emitted raw. -/
theorem C8_counterexample :
    createResponse hierObjEx = textEnvelope "T" ∧
    "T" ≠ stringifyIndent hierObjEx :=
  ⟨rfl, by decide⟩

/-- C9 witness: in the sample legacy configuration the empty-string selector
resolves successfully. -/
theorem C9_witness :
    ∃ r, getClickUpServices cfgLegacyEx initialRegistryState (some "") = .ok r :=
  ((C9_empty_selector_is_default cfgLegacyEx initialRegistryState).2.2 rfl).1

/-- C10 witness at the sample multi-workspace configuration. -/
theorem C10_witness :
    ∃ b s', moduleInit cfgMultiEx = .ok (b, s') ∧
      lookupA s'.cache (getDefaultWorkspace cfgMultiEx) = some b ∧
      s'.constructions = [getDefaultWorkspace cfgMultiEx] :=
  C10_eager_default_init cfgMultiEx rfl

end ClickUpMCP
